import Mathlib

/-!
Verification of the Road-monitoring telemetry server (src/app.py).

The development shallowly embeds the parts of `app.py` that the claims
concern: JSON values, the open-map telemetry record and its
normalization in `receive_sensor_data`, the flat-file bounded store
(`load_data` / `save_data` and the append/cap logic of
`receive_sensor_data`), the device filter of `get_latest`, the quality
aggregation of `calculate_road_quality`, and `clear_data`.

Python dicts are modelled as association lists with unique-key update
semantics (assignment to a present key replaces it in place, otherwise
the pair is appended); JSON numbers are modelled as rationals.
-/

namespace RoadMonitoring

/-- A JSON value, as produced by `json.loads` / consumed by `json.dump`
in `app.py`.  Numbers are rationals (Python ints and floats are
conflated; no claim here depends on the int/float distinction). -/
inductive JVal where
  | null : JVal
  | bool : Bool → JVal
  | num : ℚ → JVal
  | str : String → JVal
  | arr : List JVal → JVal
  | obj : List (String × JVal) → JVal

/-- A telemetry record: a Python dict with string keys (an open map).
JSON objects produced by `json.loads` have unique keys, but none of the
lemmas below need that assumption. -/
abbrev Rec := List (String × JVal)

/-- `d.get(k)`: first value bound to `k`, if any. -/
def dget : Rec → String → Option JVal
  | [], _ => none
  | (k2, v) :: d, k => if k2 = k then some v else dget d k

/-- Whether key `k` occurs in `d`. -/
def hasKey : Rec → String → Bool
  | [], _ => false
  | (k2, _) :: d, k => k2 = k || hasKey d k

/-- Replace every binding of `k` by `v` (on unique-key dicts this is the
in-place update of `d[k] = v` for a present key). -/
def dsetGo : Rec → String → JVal → Rec
  | [], _, _ => []
  | (k2, v2) :: d, k, v =>
    if k2 = k then (k, v) :: dsetGo d k v else (k2, v2) :: dsetGo d k v

/-- `d[k] = v`: update in place if `k` is present, else append the new
binding at the end (Python dicts preserve insertion order). -/
def dset (d : Rec) (k : String) (v : JVal) : Rec :=
  if hasKey d k then dsetGo d k v else d ++ [(k, v)]

/-- Python truthiness of a JSON value: `None`, `False`, `0`, the empty
string, the empty list and the empty dict are falsy. -/
def truthy : JVal → Bool
  | .null => false
  | .bool b => b
  | .num q => q != 0
  | .str s => s != ""
  | .arr xs => !xs.isEmpty
  | .obj fs => !fs.isEmpty

mutual

/-- Python `repr` of a JSON value.  Integers print in decimal exactly
as in Python; non-integer rationals print as fractions where Python
would print a float (the claims only exercise the `None`, bool and
string cases). -/
def pyRepr : JVal → String
  | .null => "None"
  | .bool true => "True"
  | .bool false => "False"
  | .num q => if q.den = 1 then toString q.num else toString q
  | .str s => "\x27" ++ s ++ "\x27"
  | .arr xs => "[" ++ pyReprList xs ++ "]"
  | .obj fs => "\x7b" ++ pyReprFields fs ++ "\x7d"

/-- Comma-separated reprs of a list's elements. -/
def pyReprList : List JVal → String
  | [] => ""
  | [x] => pyRepr x
  | x :: xs => pyRepr x ++ ", " ++ pyReprList xs

/-- Comma-separated reprs of a dict's entries. -/
def pyReprFields : List (String × JVal) → String
  | [] => ""
  | [(k, v)] => "\x27" ++ k ++ "\x27: " ++ pyRepr v
  | (k, v) :: fs => "\x27" ++ k ++ "\x27: " ++ pyRepr v ++ ", " ++ pyReprFields fs

end

/-- Python `str` of a JSON value: identity on strings, `repr`
otherwise. -/
def pyStr : JVal → String
  | .str s => s
  | v => pyRepr v

/-- `data.get(canonical) or data.get(alias, default)` — the truthy-`or`
alias resolution of `receive_sensor_data` (app.py lines 86-94).  A
missing `canonical` key reads as `None`, which is falsy. -/
def resolveField (d : Rec) (canonical legacy : String) (default : JVal) : JVal :=
  let v := (dget d canonical).getD .null
  if truthy v then v else (dget d legacy).getD default

/-- The `device_id` coercion of `receive_sensor_data` (app.py lines
80-82): when `data.get(\x27device_id\x27)` is truthy, store its string
form back under `device_id`; otherwise leave the dict unchanged. -/
def deviceStep (d : Rec) : Rec :=
  match dget d "device_id" with
  | some v => if truthy v then dset d "device_id" (.str (pyStr v)) else d
  | none => d

/-- The record normalization performed by `receive_sensor_data`
(app.py lines 75-94), with the server clock passed in as `now`:
set `timestamp`; coerce a truthy `device_id` to its string form;
resolve `accel_x`/`accel_y`/`accel_z` from their legacy aliases
`x`/`y`/`z` and `accel_magnitude` from `accelerometer`, each via
truthy-`or` with default `0`. -/
def normalize (data : Rec) (now : String) : Rec :=
  let d0 := dset data "timestamp" (.str now)
  let d1 := deviceStep d0
  let d2 := dset d1 "accel_x" (resolveField d1 "accel_x" "x" (.num 0))
  let d3 := dset d2 "accel_y" (resolveField d2 "accel_y" "y" (.num 0))
  let d4 := dset d3 "accel_z" (resolveField d3 "accel_z" "z" (.num 0))
  dset d4 "accel_magnitude" (resolveField d4 "accel_magnitude" "accelerometer" (.num 0))

/-- The observable state of the backing file `road_data.json`, at the
granularity `load_data` distinguishes: the file may be missing, raise
`OSError` on open/read, be empty or whitespace-only, fail JSON parsing
(`json.JSONDecodeError`), or parse to a JSON value `v`. -/
inductive Storage where
  | missing : Storage
  | unreadable : Storage
  | blank : Storage
  | malformed : Storage
  | wellFormed : JVal → Storage

/-- `load_data` (app.py lines 29-41): return `[]` for a missing file,
empty content, a parse error or an `OSError` (the latter two logged);
otherwise return whatever JSON value the file parses to. -/
def load_data : Storage → JVal
  | .missing => .arr []
  | .unreadable => .arr []
  | .blank => .arr []
  | .malformed => .arr []
  | .wellFormed v => v

/-- `save_data` (app.py lines 44-46): `json.dump` of a list always
leaves the file holding a well-formed JSON array. -/
def save_data (xs : List JVal) : Storage :=
  .wellFormed (.arr xs)

/-- `clear_data` (app.py lines 186-189): `save_data([])`. -/
def clear_data (_st : Storage) : Storage :=
  save_data []

/-- The store step of `receive_sensor_data` (app.py lines 97-103) on an
in-memory list: append the new record, then keep only the most recent
1000 entries (`all_data[-1000:]`) when the length exceeds 1000. -/
def appendRecord (store : List JVal) (r : Rec) : List JVal :=
  let l := store ++ [JVal.obj r]
  if 1000 < l.length then l.drop (l.length - 1000) else l

/-- N appends, oldest first, starting from the empty store. -/
def appendAll (rs : List Rec) : List JVal :=
  rs.foldl appendRecord []

/-- `JVal.isArr v` holds when `v` is a JSON array. -/
def JVal.isArr : JVal → Bool
  | .arr _ => true
  | _ => false

/-- The store step of `receive_sensor_data` against the backing file:
`load_data`, `.append`, cap, `save_data`.  When the file parses to a
non-list value, Python raises `AttributeError` at `all_data.append`
(the loaded value has no `append` method). -/
def append_on_storage (st : Storage) (r : Rec) : Except String Storage :=
  match load_data st with
  | .arr xs => .ok (save_data (appendRecord xs r))
  | _ => .error "AttributeError"

/-- `str(d.get(\x27device_id\x27))`: the string the `get_latest` filter
compares against; a record with no `device_id` contributes `"None"`. -/
def deviceStr (d : Rec) : String :=
  pyStr ((dget d "device_id").getD .null)

/-- The filter of `get_latest` (app.py line 119):
`[d for d in data if str(d.get(\x27device_id\x27)) == str(device_id)]`,
where the query parameter `device_id` is always a string. -/
def byDevice (data : List Rec) (id : String) : List Rec :=
  data.filter (fun d => deviceStr d == id)

/-- The device branch of `get_latest` (app.py lines 118-120): filter,
then `filtered[-1000:] if filtered else []`. -/
def get_latest_filtered (data : List Rec) (id : String) : List Rec :=
  let filtered := byDevice data id
  if filtered.isEmpty then []
  else filtered.drop (filtered.length - 1000)

/-- The spec-side filter, following the claim's words: keep exactly the
records whose `device_id` is present and string-equals `id` (to be
compared with `byDevice`, which is taken from the source). -/
def byDevice_specWords (data : List Rec) (id : String) : List Rec :=
  data.filter (fun d =>
    match dget d "device_id" with
    | some v => pyStr v == id
    | none => false)

/-- `item.get(\x27accel_magnitude\x27, 0)` (app.py line 135). -/
def magOf (item : Rec) : JVal :=
  (dget item "accel_magnitude").getD (.num 0)

/-- `JVal.isNum v` holds when `v` is a JSON number; `abs()` in
`calculate_road_quality` is only defined on numbers. -/
def JVal.isNum : JVal → Bool
  | .num _ => true
  | _ => false

/-- Numeric value of a JSON number (`0` on the non-number constructors,
which the quality theorems exclude by hypothesis). -/
def toQ : JVal → ℚ
  | .num q => q
  | _ => 0

/-- Python `round(x)` to an integer: round half to even (banker's
rounding), which `round` uses at exact ties. -/
def pyRound (q : ℚ) : ℤ :=
  let f := ⌊q⌋
  let r := q - f
  if r < 1 / 2 then f
  else if 1 / 2 < r then f + 1
  else if f % 2 = 0 then f else f + 1

/-- Python `round(x, 2)`: round `100 * x` to an integer, divide back. -/
def round2 (q : ℚ) : ℚ :=
  (pyRound (q * 100) : ℚ) / 100

/-- Result shape of `calculate_road_quality`: the numeric fields are
absent from the JSON response in the no-data case. -/
structure QualityResult where
  quality : String
  avg_vibration : Option ℚ
  total_readings : Option ℕ
  deriving Repr, DecidableEq

/-- The aggregation of `calculate_road_quality` (app.py lines 132-151)
on a record list: mean of `abs(accel_magnitude)` (default `0`), label
from the `if`/`elif` threshold chain, mean rounded to 2 decimals in the
output, reading count. -/
def assessQuality (data : List Rec) : QualityResult :=
  if data.isEmpty then
    { quality := "No data", avg_vibration := none, total_readings := none }
  else
    let magnitudes := data.map (fun item => |toQ (magOf item)|)
    let avg_accel := magnitudes.sum / magnitudes.length
    let quality :=
      if avg_accel < 2 then "Excellent"
      else if avg_accel < 5 then "Good"
      else if avg_accel < 10 then "Fair"
      else "Poor"
    { quality := quality
      avg_vibration := some (round2 avg_accel)
      total_readings := some data.length }

/-- The full `calculate_road_quality` route (app.py lines 126-151):
optional device filter, then aggregation; always HTTP 200. -/
def calculate_road_quality (data : List Rec) (device_id : Option String) :
    QualityResult × Nat :=
  let data := match device_id with
    | some id => byDevice data id
    | none => data
  (assessQuality data, 200)

/-- Mean of the absolute magnitudes of a record list (the quantity the
threshold chain of `calculate_road_quality` branches on). -/
def meanAbsMag (data : List Rec) : ℚ :=
  (data.map (fun item => |toQ (magOf item)|)).sum / data.length

/-! ## Dictionary lemmas -/

theorem dget_eq_none_of_hasKey_eq_false (d : Rec) (k : String)
    (h : hasKey d k = false) : dget d k = none := by
  induction d with
  | nil => rfl
  | cons p d ih =>
    obtain ⟨k2, v⟩ := p
    simp only [hasKey, Bool.or_eq_false_iff, decide_eq_false_iff_not] at h
    simp [dget, h.1, ih h.2]

theorem dget_append_of_eq_none (d e : Rec) (k : String)
    (h : dget d k = none) : dget (d ++ e) k = dget e k := by
  induction d with
  | nil => rfl
  | cons p d ih =>
    obtain ⟨k2, v⟩ := p
    by_cases hk : k2 = k
    · simp [dget, hk] at h
    · simp only [dget, hk, if_false] at h
      simp [dget, hk, ih h]

theorem dget_append_single_ne (d : Rec) (k k2 : String) (v : JVal)
    (h : k ≠ k2) : dget (d ++ [(k2, v)]) k = dget d k := by
  induction d with
  | nil => simp [dget, Ne.symm h]
  | cons p d ih =>
    obtain ⟨k3, v3⟩ := p
    simp [dget, ih]

theorem dget_dsetGo_self (d : Rec) (k : String) (v : JVal)
    (h : hasKey d k = true) : dget (dsetGo d k v) k = some v := by
  induction d with
  | nil => simp [hasKey] at h
  | cons p d ih =>
    obtain ⟨k2, v2⟩ := p
    by_cases hk : k2 = k
    · subst hk
      simp [dsetGo, dget]
    · simp only [hasKey, hk, decide_False, Bool.false_or] at h
      simp [dsetGo, dget, hk, ih h]

theorem dget_dsetGo_ne (d : Rec) (k k2 : String) (v : JVal)
    (h : k ≠ k2) : dget (dsetGo d k2 v) k = dget d k := by
  induction d with
  | nil => rfl
  | cons p d ih =>
    obtain ⟨k3, v3⟩ := p
    by_cases hk : k3 = k2
    · subst hk
      simp [dsetGo, dget, Ne.symm h, ih]
    · simp [dsetGo, dget, hk, ih]

theorem dget_dset_self (d : Rec) (k : String) (v : JVal) :
    dget (dset d k v) k = some v := by
  unfold dset
  by_cases h : hasKey d k = true
  · rw [if_pos h]
    exact dget_dsetGo_self d k v h
  · have h2 : hasKey d k = false := by simpa using h
    simp only [h2, Bool.false_eq_true, if_false]
    rw [dget_append_of_eq_none _ _ _ (dget_eq_none_of_hasKey_eq_false d k h2)]
    simp [dget]

theorem dget_dset_ne (d : Rec) (k k2 : String) (v : JVal)
    (h : k ≠ k2) : dget (dset d k2 v) k = dget d k := by
  unfold dset
  by_cases hk : hasKey d k2 = true
  · rw [if_pos hk]
    exact dget_dsetGo_ne d k k2 v h
  · have h2 : hasKey d k2 = false := by simpa using hk
    simp only [h2, Bool.false_eq_true, if_false]
    exact dget_append_single_ne d k k2 v h

theorem dget_deviceStep_ne (d : Rec) (k : String) (h : k ≠ "device_id") :
    dget (deviceStep d) k = dget d k := by
  unfold deviceStep
  cases hdev : dget d "device_id" with
  | none => rfl
  | some v =>
    by_cases ht : truthy v
    · simp [ht, dget_dset_ne d k "device_id" _ h]
    · simp [ht]

/-- Reads of keys other than `timestamp` and `device_id` pass
unchanged through the first two statements of `receive_sensor_data`. -/
theorem dget_stage1 (raw : Rec) (now : String) (k : String)
    (h1 : k ≠ "timestamp") (h2 : k ≠ "device_id") :
    dget (deviceStep (dset raw "timestamp" (.str now))) k = dget raw k := by
  rw [dget_deviceStep_ne _ _ h2, dget_dset_ne _ _ _ _ h1]

/-! ## Claims about record normalization (C2, C7) -/

/-- C2 (counterexample): the claim says the canonical key's value wins
whenever the key is present, but on `\x7baccel_x: 0, x: 1\x7d` the
truthy-`or` of `receive_sensor_data` discards the present-but-falsy
canonical value `0` and resolves `accel_x` to the alias value `1`. -/
theorem c2_claim_counterexample :
    dget [("accel_x", JVal.num 0), ("x", JVal.num 1)] "accel_x" =
      some (JVal.num 0) ∧
    dget (normalize [("accel_x", JVal.num 0), ("x", JVal.num 1)] "T")
      "accel_x" = some (JVal.num 1) := by
  constructor <;> rfl

/-- C2 (amended): `normalize` resolves each accelerometer field to the
canonical key's value when that key is present with a truthy (non-zero,
non-empty, non-null) value; otherwise to the legacy alias's value when
the alias key is present (even if falsy); otherwise to `0`.  Same
pattern for `accel_x`/`x`, `accel_y`/`y`, `accel_z`/`z` and
`accel_magnitude`/`accelerometer`. -/
theorem c2_truthy_resolution (raw : Rec) (now : String) :
    dget (normalize raw now) "accel_x" =
      some (if truthy ((dget raw "accel_x").getD .null)
            then (dget raw "accel_x").getD .null
            else (dget raw "x").getD (.num 0)) ∧
    dget (normalize raw now) "accel_y" =
      some (if truthy ((dget raw "accel_y").getD .null)
            then (dget raw "accel_y").getD .null
            else (dget raw "y").getD (.num 0)) ∧
    dget (normalize raw now) "accel_z" =
      some (if truthy ((dget raw "accel_z").getD .null)
            then (dget raw "accel_z").getD .null
            else (dget raw "z").getD (.num 0)) ∧
    dget (normalize raw now) "accel_magnitude" =
      some (if truthy ((dget raw "accel_magnitude").getD .null)
            then (dget raw "accel_magnitude").getD .null
            else (dget raw "accelerometer").getD (.num 0)) := by
  refine ⟨?_, ?_, ?_, ?_⟩
  · simp only [normalize]
    rw [dget_dset_ne _ "accel_x" "accel_magnitude" _ (by decide),
        dget_dset_ne _ "accel_x" "accel_z" _ (by decide),
        dget_dset_ne _ "accel_x" "accel_y" _ (by decide),
        dget_dset_self]
    simp only [resolveField]
    rw [dget_stage1 raw now "accel_x" (by decide) (by decide),
        dget_stage1 raw now "x" (by decide) (by decide)]
  · simp only [normalize]
    rw [dget_dset_ne _ "accel_y" "accel_magnitude" _ (by decide),
        dget_dset_ne _ "accel_y" "accel_z" _ (by decide),
        dget_dset_self]
    simp only [resolveField]
    rw [dget_dset_ne _ "accel_y" "accel_x" _ (by decide),
        dget_stage1 raw now "accel_y" (by decide) (by decide),
        dget_dset_ne _ "y" "accel_x" _ (by decide),
        dget_stage1 raw now "y" (by decide) (by decide)]
  · simp only [normalize]
    rw [dget_dset_ne _ "accel_z" "accel_magnitude" _ (by decide),
        dget_dset_self]
    simp only [resolveField]
    rw [dget_dset_ne _ "accel_z" "accel_y" _ (by decide),
        dget_dset_ne _ "accel_z" "accel_x" _ (by decide),
        dget_stage1 raw now "accel_z" (by decide) (by decide),
        dget_dset_ne _ "z" "accel_y" _ (by decide),
        dget_dset_ne _ "z" "accel_x" _ (by decide),
        dget_stage1 raw now "z" (by decide) (by decide)]
  · simp only [normalize]
    rw [dget_dset_self]
    simp only [resolveField]
    rw [dget_dset_ne _ "accel_magnitude" "accel_z" _ (by decide),
        dget_dset_ne _ "accel_magnitude" "accel_y" _ (by decide),
        dget_dset_ne _ "accel_magnitude" "accel_x" _ (by decide),
        dget_stage1 raw now "accel_magnitude" (by decide) (by decide),
        dget_dset_ne _ "accelerometer" "accel_z" _ (by decide),
        dget_dset_ne _ "accelerometer" "accel_y" _ (by decide),
        dget_dset_ne _ "accelerometer" "accel_x" _ (by decide),
        dget_stage1 raw now "accelerometer" (by decide) (by decide)]

/-- C7: `normalize` modifies only the keys `timestamp`, `device_id`,
`accel_x`, `accel_y`, `accel_z`, `accel_magnitude`: `timestamp` is
always overwritten with the server clock, and every key outside that
set keeps its original binding from the input map. -/
theorem c7_normalize_frame (raw : Rec) (now : String) (k : String)
    (hk : k ∉ ["timestamp", "device_id", "accel_x", "accel_y",
               "accel_z", "accel_magnitude"]) :
    dget (normalize raw now) "timestamp" = some (.str now) ∧
    dget (normalize raw now) k = dget raw k := by
  constructor
  · simp only [normalize]
    rw [dget_dset_ne _ "timestamp" "accel_magnitude" _ (by decide),
        dget_dset_ne _ "timestamp" "accel_z" _ (by decide),
        dget_dset_ne _ "timestamp" "accel_y" _ (by decide),
        dget_dset_ne _ "timestamp" "accel_x" _ (by decide),
        dget_deviceStep_ne _ "timestamp" (by decide),
        dget_dset_self]
  · simp only [List.mem_cons, List.mem_singleton, not_or] at hk
    obtain ⟨h1, h2, h3, h4, h5, h6⟩ := hk
    simp only [normalize]
    rw [dget_dset_ne _ k "accel_magnitude" _ h6.1,
        dget_dset_ne _ k "accel_z" _ h5,
        dget_dset_ne _ k "accel_y" _ h4,
        dget_dset_ne _ k "accel_x" _ h3,
        dget_stage1 raw now k h1 h2]

/-- C7 witness: a record carrying an extra key `lat` keeps it
unchanged while `timestamp` is set to the server clock. -/
theorem c7_normalize_frame_witness :
    dget (normalize [("lat", JVal.num 7)] "T") "timestamp" =
      some (JVal.str "T") ∧
    dget (normalize [("lat", JVal.num 7)] "T") "lat" =
      some (JVal.num 7) := by
  have h := c7_normalize_frame [("lat", JVal.num 7)] "T" "lat" (by decide)
  exact ⟨h.1, h.2.trans (by rfl)⟩

/-! ## Claims about the bounded store (C1, C9) -/

theorem appendAll_eq (rs : List Rec) :
    appendAll rs = (rs.map JVal.obj).drop (rs.length - 1000) := by
  induction rs using List.reverseRecOn with
  | nil => rfl
  | append_singleton rs r ih =>
    have hfold : appendAll (rs ++ [r]) = appendRecord (appendAll rs) r := by
      simp [appendAll, List.foldl_append]
    rw [hfold, ih]
    have hlen : (rs.map JVal.obj).length = rs.length := List.length_map rs JVal.obj
    unfold appendRecord
    by_cases hcase : rs.length < 1000
    · have h0 : rs.length - 1000 = 0 := by omega
      rw [h0, List.drop_zero, if_neg]
      · have h1 : (rs ++ [r]).length - 1000 = 0 := by
          simp only [List.length_append, List.length_singleton]
          omega
        rw [h1, List.drop_zero, List.map_append]
        rfl
      · simp only [List.length_append, List.length_singleton, hlen]
        omega
    · push_neg at hcase
      have hDlen : ((rs.map JVal.obj).drop (rs.length - 1000)).length = 1000 := by
        rw [List.length_drop, hlen]
        omega
      rw [if_pos (by
        simp only [List.length_append, List.length_singleton, hDlen]
        omega)]
      have h2 : ((rs.map JVal.obj).drop (rs.length - 1000) ++
          [JVal.obj r]).length - 1000 = 1 := by
        simp only [List.length_append, List.length_singleton, hDlen]
      rw [h2, List.drop_append_eq_append_drop, hDlen, List.drop_drop]
      have h3 : (1 : ℕ) - 1000 = 0 := by omega
      rw [h3, List.drop_zero, List.map_append]
      have e1 : rs.length - 1000 + 1 = (rs ++ [r]).length - 1000 := by
        simp only [List.length_append, List.length_singleton]
        omega
      rw [e1, List.drop_append_eq_append_drop, hlen]
      have e2 : (rs ++ [r]).length - 1000 - rs.length = 0 := by
        simp only [List.length_append, List.length_singleton]
        omega
      rw [e2, List.drop_zero]
      rfl

/-- C1: starting from an empty store, after N appends `load_data` on
the saved file yields the last `min N 1000` appended records in their
original order — all of them when N ≤ 1000 (so the drop below is
trivial), exactly the most recent 1000 when N > 1000. -/
theorem c1_append_cap (rs : List Rec) :
    load_data (save_data (appendAll rs)) =
      .arr ((rs.map JVal.obj).drop (rs.length - 1000)) ∧
    (appendAll rs).length = min rs.length 1000 := by
  have h := appendAll_eq rs
  constructor
  · exact congrArg (fun xs => load_data (save_data xs)) h
  · rw [h, List.length_drop, List.length_map]
    omega

/-- C9: `clear_data` persists the empty sequence, so a subsequent
`load_data` returns the empty array whatever the prior state was. -/
theorem c9_clear_then_all (st : Storage) :
    load_data (clear_data st) = .arr [] := rfl

/-! ## Claims about the device filter (C3) -/

/-- C3 (counterexample): `get_latest` compares
`str(d.get(\x27device_id\x27))`, so a record with no `device_id` at
all is returned by `byDevice "None"`, contradicting the claim that
every returned record has a `device_id` equal to the argument (the
spec-words filter returns nothing here). -/
theorem c3_claim_counterexample :
    byDevice [([] : Rec)] "None" = [([] : Rec)] ∧
    dget ([] : Rec) "device_id" = none ∧
    byDevice_specWords [([] : Rec)] "None" = [] := by
  exact ⟨rfl, rfl, rfl⟩

/-- C3 (amended): on store states within the 1000-record cap,
`get_latest` with a device filter returns exactly the records whose
`device_id` — coerced to its Python string form, a missing id reading
as `"None"` — equals the query string, in their original order (an
order-preserving sublist); soundness and completeness of the filter
are stated for that string-coercion predicate. -/
theorem c3_byDevice_filter (data : List Rec) (id : String)
    (h : data.length ≤ 1000) :
    get_latest_filtered data id = byDevice data id ∧
    List.Sublist (get_latest_filtered data id) data ∧
    (∀ r ∈ get_latest_filtered data id, deviceStr r = id) ∧
    (∀ r ∈ data, deviceStr r = id → r ∈ get_latest_filtered data id) := by
  have hflen : (byDevice data id).length ≤ 1000 :=
    le_trans (data.length_filter_le _) h
  have hroute : get_latest_filtered data id = byDevice data id := by
    unfold get_latest_filtered
    by_cases he : (byDevice data id).isEmpty = true
    · rw [if_pos he, List.isEmpty_iff.mp he]
    · rw [if_neg he]
      have : (byDevice data id).length - 1000 = 0 := by omega
      rw [this, List.drop_zero]
  refine ⟨hroute, ?_, ?_, ?_⟩
  · rw [hroute]
    exact List.filter_sublist data
  · intro r hr
    rw [hroute] at hr
    have := (List.mem_filter.mp hr).2
    simpa using this
  · intro r hr hid
    rw [hroute]
    exact List.mem_filter.mpr ⟨hr, by simpa using hid⟩

/-- C3 witness: a one-record store with a matching string id. -/
theorem c3_byDevice_filter_witness :
    get_latest_filtered [[("device_id", JVal.str "a")]] "a" =
      byDevice [[("device_id", JVal.str "a")]] "a" ∧
    byDevice [[("device_id", JVal.str "a")]] "a" =
      [[("device_id", JVal.str "a")]] := by
  exact ⟨(c3_byDevice_filter [[("device_id", JVal.str "a")]] "a"
    (by decide)).1, rfl⟩

/-! ## Claims about quality aggregation (C4, C8) -/

/-- C4: on a non-empty record list whose magnitudes are JSON numbers,
the aggregation reports the 2-decimal rounding of the mean absolute
magnitude, the record count, and the label given by the threshold
chain on the mean: below 2 Excellent, in [2,5) Good, in [5,10) Fair,
at 10 or above Poor. -/
theorem c4_assess_quality (data : List Rec) (hne : data ≠ [])
    (_hnum : ∀ r ∈ data, JVal.isNum (magOf r) = true) :
    (assessQuality data).avg_vibration = some (round2 (meanAbsMag data)) ∧
    (assessQuality data).total_readings = some data.length ∧
    (meanAbsMag data < 2 → (assessQuality data).quality = "Excellent") ∧
    (2 ≤ meanAbsMag data → meanAbsMag data < 5 →
      (assessQuality data).quality = "Good") ∧
    (5 ≤ meanAbsMag data → meanAbsMag data < 10 →
      (assessQuality data).quality = "Fair") ∧
    (10 ≤ meanAbsMag data → (assessQuality data).quality = "Poor") := by
  have hempty : data.isEmpty = false := by
    simpa [List.isEmpty_iff] using hne
  have hmean : ((data.map fun item => |toQ (magOf item)|).sum /
      ((data.map fun item => |toQ (magOf item)|).length : ℚ)) =
      meanAbsMag data := by
    rw [meanAbsMag, List.length_map]
  simp only [assessQuality, hempty, Bool.false_eq_true, if_false, hmean]
  refine ⟨trivial, trivial, ?_, ?_, ?_, ?_⟩
  · intro h1
    show (if meanAbsMag data < 2 then "Excellent" else _) = "Excellent"
    rw [if_pos h1]
  · intro h1 h2
    show (if meanAbsMag data < 2 then "Excellent" else _) = "Good"
    rw [if_neg (by linarith), if_pos h2]
  · intro h1 h2
    show (if meanAbsMag data < 2 then "Excellent" else _) = "Fair"
    rw [if_neg (by linarith), if_neg (by linarith), if_pos h2]
  · intro h1
    show (if meanAbsMag data < 2 then "Excellent" else _) = "Poor"
    rw [if_neg (by linarith), if_neg (by linarith), if_neg (by linarith)]

/-- C4 witness: a single reading of magnitude 3 is Good with mean 3. -/
theorem c4_assess_quality_witness :
    (assessQuality [[("accel_magnitude", JVal.num 3)]]).quality = "Good" ∧
    (assessQuality [[("accel_magnitude", JVal.num 3)]]).avg_vibration =
      some 3 := by
  have hm : meanAbsMag [[("accel_magnitude", JVal.num 3)]] = 3 := by
    simp [meanAbsMag, magOf, dget, toQ]
  have h := c4_assess_quality [[("accel_magnitude", JVal.num 3)]]
    (List.cons_ne_nil _ _) (by decide)
  refine ⟨h.2.2.2.1 (by rw [hm]; norm_num) (by rw [hm]; norm_num), ?_⟩
  rw [h.1, hm]
  norm_num [round2, pyRound]

/-- C8: the empty store aggregates to the bare `"No data"` result with
both numeric fields omitted, and the route returns it with HTTP status
200, a success. -/
theorem c8_no_data :
    assessQuality [] =
      { quality := "No data", avg_vibration := none, total_readings := none } ∧
    calculate_road_quality [] none = (assessQuality [], 200) := by
  exact ⟨rfl, rfl⟩

/-! ## Claims about corruption recovery (C5, C10) -/

/-- C5 (counterexample): a backing file holding `\x7b\x7d` — valid
JSON but not a record sequence — is not replaced by the empty
sequence: `load_data` returns the parsed object as-is. -/
theorem c5_claim_counterexample :
    JVal.isArr (load_data (.wellFormed (.obj []))) = false ∧
    load_data (.wellFormed (.obj [])) ≠ .arr [] := by
  exact ⟨rfl, fun h => JVal.noConfusion h⟩

/-- C5 (amended): `load_data` never fails and returns the empty
sequence for every storage outcome short of a successful JSON parse —
missing file, unreadable file, blank content, malformed content; but
content that parses is returned exactly as parsed, even when it is not
a record sequence. -/
theorem c5_load_recovery (st : Storage) :
    ((∀ v, st ≠ .wellFormed v) → load_data st = .arr []) ∧
    (∀ v, st = .wellFormed v → load_data st = v) := by
  refine ⟨fun h => ?_, fun v hv => by subst hv; rfl⟩
  cases st with
  | missing => rfl
  | unreadable => rfl
  | blank => rfl
  | malformed => rfl
  | wellFormed v => exact absurd rfl (h v)

/-- C5 witness: malformed content loads as the empty array. -/
theorem c5_load_recovery_witness :
    load_data .malformed = .arr [] :=
  (c5_load_recovery .malformed).1 (fun _ h => Storage.noConfusion h)

/-- C10: recovery covers exactly the unreadable/parse-failure cases:
those all load as `[]`, while a file parsing to a non-array JSON value
is returned as-is by `load_data`, and the append path of
`receive_sensor_data` then raises (`.append` on a non-list) instead of
recovering. -/
theorem c10_recovery_scope (v : JVal) (h : JVal.isArr v = false) :
    load_data (.wellFormed v) = v ∧
    (∀ r : Rec, append_on_storage (.wellFormed v) r =
      .error "AttributeError") ∧
    load_data .missing = .arr [] ∧
    load_data .unreadable = .arr [] ∧
    load_data .blank = .arr [] ∧
    load_data .malformed = .arr [] := by
  refine ⟨rfl, fun r => ?_, rfl, rfl, rfl, rfl⟩
  have hl : load_data (.wellFormed v) = v := rfl
  unfold append_on_storage
  rw [hl]
  cases v with
  | arr xs => simp [JVal.isArr] at h
  | null => rfl
  | bool b => rfl
  | num q => rfl
  | str s => rfl
  | obj fs => rfl

/-- C10 witness: the JSON-object file `\x7b\x7d`. -/
theorem c10_recovery_scope_witness :
    load_data (.wellFormed (.obj [])) = .obj [] ∧
    append_on_storage (.wellFormed (.obj [])) [] =
      .error "AttributeError" := by
  have h := c10_recovery_scope (.obj []) rfl
  exact ⟨h.1, h.2.1 []⟩

end RoadMonitoring
